import Mathlib

/-!
# Verification of the semantic-rag-webapp frontend and pipeline contracts

Shallow embedding of the repository's code:

* `frontend/src/app/api.service.ts` — the response interfaces (`SearchResult`,
  `SearchResponse`, `IngestResponse`, `StatsResponse`, the `clearIndex` response
  type) and the request-building methods of `ApiService`.
* `frontend/src/app/app.component.ts` — the `AppComponent` handlers `search`
  and `onFileSelected` (their synchronous phase and their subscribe callbacks),
  modelled as explicit state transformers that also report the list of HTTP
  requests they issue.
* The backend (`backend/app/chunker.py`, `backend/app/vector_store.py`,
  `backend/app/main.py`) is not part of the visible sources; the definitions
  embedding it are modelled from the specification and are marked as such in
  their doc comments.

TypeScript/JSON values are modelled by the `Json` inductive; a TypeScript
`number` is carried by an abstract integer payload, which is all the shape
properties below depend on.
-/

set_option maxRecDepth 20000

/-! ## JSON values and field access -/

/-- A JSON value as exchanged between the Angular frontend and the FastAPI
backend.  The `num` payload abstracts the TypeScript `number` type. -/
inductive Json where
  | str  : String → Json
  | num  : Int → Json
  | bool : Bool → Json
  | null : Json
  | arr  : List Json → Json
  | obj  : List (String × Json) → Json

/-- Look up a field of a JSON object; `none` on non-objects and absent keys. -/
def Json.field (j : Json) (k : String) : Option Json :=
  match j with
  | .obj fs => fs.lookup k
  | _ => none

/-- The optional value is present and is a JSON string. -/
def isStr : Option Json → Bool
  | some (Json.str _) => true
  | _ => false

/-- The optional value is present and is a JSON number. -/
def isNum : Option Json → Bool
  | some (Json.num _) => true
  | _ => false

/-- The JSON value is an object carrying the field `k` (of any type). -/
def carriesField (j : Json) (k : String) : Bool := (j.field k).isSome

/-! ## Response interfaces declared in `frontend/src/app/api.service.ts` -/

/-- The `metadata` member of `SearchResult` (api.service.ts lines 250-254):
an object with a `source` string and a `chunk_index` number; the index
signature `[key: string]: any` admits arbitrary further fields. -/
def conformsSearchResultMetadata (j : Json) : Bool :=
  match j with
  | .obj _ => isStr (j.field "source") && isNum (j.field "chunk_index")
  | _ => false

/-- The `SearchResult` interface (api.service.ts lines 248-256): members
`text: string`, `metadata: {source, chunk_index, ...}`, `score: number`,
in declaration order. -/
def conformsSearchResult (j : Json) : Bool :=
  match j with
  | .obj [("text", .str _), ("metadata", m), ("score", .num _)] =>
      conformsSearchResultMetadata m
  | _ => false

/-- The `SearchResponse` interface (api.service.ts lines 258-262): members
`query: string`, `results: SearchResult[]`, `answer: string`. -/
def conformsSearchResponse (j : Json) : Bool :=
  match j with
  | .obj [("query", .str _), ("results", .arr rs), ("answer", .str _)] =>
      rs.all conformsSearchResult
  | _ => false

/-- The `IngestResponse` interface (api.service.ts lines 264-268): members
`message: string`, `filename: string`, `chunks_added: number`. -/
def conformsIngestResponse (j : Json) : Bool :=
  match j with
  | .obj [("message", .str _), ("filename", .str _), ("chunks_added", .num _)] => true
  | _ => false

/-- The `StatsResponse` interface (api.service.ts lines 270-274): members
`total_documents: number`, `embedding_dimension: number`, `model_name: string`. -/
def conformsStatsResponse (j : Json) : Bool :=
  match j with
  | .obj [("total_documents", .num _), ("embedding_dimension", .num _),
          ("model_name", .str _)] => true
  | _ => false

/-- The response type of `ApiService.clearIndex` (api.service.ts lines
300-302): `{ message: string }`. -/
def conformsClearResponse (j : Json) : Bool :=
  match j with
  | .obj [("message", .str _)] => true
  | _ => false

/-! ## Shapes written from the specification's words, for comparison -/

/-- The per-element shape asserted by the spec sentence
`results: ordered list of \x7btext, source, chunk_index, metadata, score\x7d`:
all five names as fields of the element itself. -/
def claimedFlatSearchElement (r : Json) : Bool :=
  carriesField r "text" && carriesField r "source" && carriesField r "chunk_index" &&
    carriesField r "metadata" && carriesField r "score"

/-- The response shape asserted by the spec for the query operation: an
`answer` string and a `results` list whose elements satisfy
`claimedFlatSearchElement`. -/
def claimedFlatSearchResponse (j : Json) : Bool :=
  isStr (j.field "answer") &&
    (match j.field "results" with
     | some (.arr rs) => rs.all claimedFlatSearchElement
     | _ => false)

/-- The per-element shape the code actually declares: `text` string and
`score` number on the element, with `source` and `chunk_index` nested inside
its `metadata` object. -/
def nestedSearchElement (r : Json) : Bool :=
  isStr (r.field "text") && isNum (r.field "score") &&
    (match r.field "metadata" with
     | some m => isStr (m.field "source") && isNum (m.field "chunk_index")
     | none => false)

/-- The response shape with `source`/`chunk_index` nested under `metadata`. -/
def nestedSearchResponse (j : Json) : Bool :=
  isStr (j.field "answer") &&
    (match j.field "results" with
     | some (.arr rs) => rs.all nestedSearchElement
     | _ => false)

/-- The success shape asserted by the spec sentence
`ingest(filename, format, raw bytes) -> \x7bchunks_added: integer\x7d`: an object
whose sole field is `chunks_added`. -/
def claimedIngestShape (j : Json) : Bool :=
  match j with
  | .obj [("chunks_added", .num _)] => true
  | _ => false

/-! ## API requests issued by `ApiService` (api.service.ts) -/

/-- One HTTP request of the backend API, as built by the four methods of
`ApiService`: `GET /stats`, `POST /search`, `POST /ingest`, `DELETE /clear`. -/
inductive ApiRequest where
  | getStats : ApiRequest
  | search : String → Nat → ApiRequest
  | ingest : String → ApiRequest
  | clear : ApiRequest
deriving DecidableEq

/-- `ApiService.getStats()`: a `GET /stats` request. -/
def ApiService.getStats : ApiRequest := ApiRequest.getStats

/-- `ApiService.search(query, topK = 5)`: a `POST /search` request with body
`\x7bquery, top_k: topK\x7d`; the TypeScript default parameter is modelled by an
optional argument defaulted to 5. -/
def ApiService.search (query : String) (topK : Option Nat) : ApiRequest :=
  ApiRequest.search query (topK.getD 5)

/-- `ApiService.ingestDocument(file)`: a `POST /ingest` request carrying the
file. -/
def ApiService.ingestDocument (file : String) : ApiRequest := ApiRequest.ingest file

/-- `ApiService.clearIndex()`: a `DELETE /clear` request. -/
def ApiService.clearIndex : ApiRequest := ApiRequest.clear

/-- Whether the request is one of the two read-only endpoints (`GET /stats`,
`POST /search`) rather than `POST /ingest` or `DELETE /clear`. -/
def ApiRequest.readOnly : ApiRequest → Bool
  | .getStats => true
  | .search _ _ => true
  | .ingest _ => false
  | .clear => false

/-- The request is a `POST /search` request. -/
def isSearchRequest : ApiRequest → Bool
  | .search _ _ => true
  | _ => false

/-! ## The Angular component `AppComponent` (app.component.ts) -/

/-- JavaScript `String.prototype.trim()`: strip whitespace from both ends
(restricted to the whitespace characters `Char.isWhitespace` recognises). -/
def jsTrim (s : String) : String :=
  ⟨((s.data.dropWhile Char.isWhitespace).reverse.dropWhile Char.isWhitespace).reverse⟩

/-- The signals of `AppComponent` (app.component.ts lines 16-22) together with
the `value` property of the file input element touched by `onFileSelected`. -/
structure ComponentState where
  query : String
  results : Option Json
  stats : Option Json
  loading : Bool
  uploading : Bool
  error : Option String
  uploadMessage : Option String
  fileInputValue : String

/-- The synchronous phase of `AppComponent.search` (app.component.ts lines
35-43): if the trimmed query is empty, return immediately; otherwise set
`loading`, reset `error` and `results`, and issue `api.search(q, 5)`.
Returns the updated state and the issued requests. -/
def AppComponent.search (st : ComponentState) : ComponentState × List ApiRequest :=
  if jsTrim st.query = "" then (st, [])
  else ({ st with loading := true, error := none, results := none },
        [ApiService.search (jsTrim st.query) (some 5)])

/-- The `next` callback of `AppComponent.search` (lines 44-47): store the
response and clear `loading`; no further request is issued. -/
def AppComponent.searchOnNext (st : ComponentState) (data : Json) :
    ComponentState × List ApiRequest :=
  ({ st with results := some data, loading := false }, [])

/-- The `error` callback of `AppComponent.search` (lines 48-51): store the
error detail (or the fallback message) and clear `loading`; no further
request is issued. -/
def AppComponent.searchOnError (st : ComponentState) (detail : Option String) :
    ComponentState × List ApiRequest :=
  ({ st with error := some (detail.getD "Search failed. Please try again."),
             loading := false }, [])

/-- The outcome delivered to the subscription of
`api.ingestDocument(file)`: the `IngestResponse` fields the `next` handler
reads, or the optional `err.error?.detail` string of the `error` handler. -/
inductive UploadOutcome where
  | ok : String → Nat → UploadOutcome
  | err : Option String → UploadOutcome

/-- `AppComponent.onFileSelected` (app.component.ts lines 55-77), from the
chosen file (if any) to the state after the subscription completes: set
`uploading` and reset the messages, issue `api.ingestDocument(file)`, then in
both callbacks clear `uploading` and reset the input's `value`; on success
also record the upload message and reload the stats. -/
def AppComponent.onFileSelected (st : ComponentState) (file : Option String)
    (resp : UploadOutcome) : ComponentState × List ApiRequest :=
  match file with
  | none => (st, [])
  | some f =>
    let st1 := { st with uploading := true, error := none, uploadMessage := none }
    match resp with
    | .ok filename n =>
        ({ st1 with uploadMessage := some (filename ++ ": " ++ toString n ++ " chunks indexed"),
                    uploading := false, fileInputValue := "" },
         [ApiService.ingestDocument f, ApiService.getStats])
    | .err d =>
        ({ st1 with error := some (d.getD "Upload failed. Please try again."),
                    uploading := false, fileInputValue := "" },
         [ApiService.ingestDocument f])

/-! ## Spec-modelled backend: errors, chunker, vector index, pipeline -/

/-- Modelled from the spec: the error kinds of section 7 (the backend module
raising them is not among the visible sources). -/
inductive RagError where
  | unsupportedFormat : RagError
  | extraction : RagError
  | configuration : RagError
  | dimensionMismatch : RagError
  | invalidArgument : RagError
  | modelUnavailable : RagError
  | generationBackend : RagError
deriving DecidableEq

/-- Modelled from the spec: the greedy fixed-window walk of the chunker
(`backend/app/chunker.py` is not among the visible sources).  Each window has
length `maxSize`; each subsequent window starts `step` characters after the
previous window's start; a window that reaches the end of the text is the
last one, so text no longer than `maxSize` yields exactly one window and
empty text yields none.  The fuel argument (instantiated with the text
length) only forces termination and is never exhausted when `step > 0`. -/
def windowsGo (maxSize step : Nat) : Nat → List Char → List (List Char)
  | 0, _ => []
  | fuel + 1, cs =>
    if cs.length = 0 then []
    else if cs.length ≤ maxSize then [cs]
    else cs.take maxSize :: windowsGo maxSize step fuel (cs.drop step)

/-- Modelled from the spec: all windows of the text, starting at 0 and
stepping by `step`. -/
def windows (maxSize step : Nat) (cs : List Char) : List (List Char) :=
  windowsGo maxSize step cs.length cs

/-- Modelled from the spec: `chunk(text, max_size, overlap)` of section 4.2
(`backend/app/chunker.py` is not among the visible sources).  Fails with
`ConfigurationError` when `overlap ≥ max_size`; otherwise emits the greedy
windows with step `max_size - overlap`, so consecutive windows share
`overlap` characters. -/
def chunkText (maxSize overlap : Nat) (cs : List Char) : Except RagError (List (List Char)) :=
  if maxSize ≤ overlap then .error .configuration
  else .ok (windows maxSize (maxSize - overlap) cs)

/-- An embedding vector; the spec fixes only that it is a fixed-length ordered
sequence of numbers, carried here by integers. -/
abbrev Vec := List Int

/-- A chunk as stored by the index: its text, originating document, and
zero-based position within that document. -/
structure Chunk where
  text : String
  source : String
  chunk_index : Nat
deriving DecidableEq

/-- Modelled from the spec: one vector-index entry pairing a chunk with its
embedding vector (`backend/app/vector_store.py` is not among the visible
sources). -/
structure Entry where
  chunk : Chunk
  vec : Vec
deriving DecidableEq

/-- Modelled from the spec: the vector index state — the appended entries and
the dimensionality fixed by the first insertion (`none` while unset). -/
structure VecIndex where
  entries : List Entry
  dim : Option Nat
deriving DecidableEq

/-- The freshly created index: no entries, dimensionality unset. -/
def VecIndex.empty : VecIndex := ⟨[], none⟩

/-- The vectors all match the index dimensionality (or, when it is unset,
agree with each other). -/
def dimsOk (d : Option Nat) (vecs : List Vec) : Bool :=
  match d, vecs with
  | some n, _ => vecs.all (fun v => v.length = n)
  | none, [] => true
  | none, v :: rest => rest.all (fun w => w.length = v.length)

/-- The dimensionality after an insertion: unchanged if already set, else the
length of the first inserted vector. -/
def nextDim (d : Option Nat) (vecs : List Vec) : Option Nat :=
  match d with
  | some n => some n
  | none => vecs.head?.map List.length

/-- Modelled from the spec: `add(chunks, vectors)` of section 4.4 — requires
equally many chunks and vectors and matching dimensionality, else fails with
`DimensionMismatchError`; on success appends all entries atomically. -/
def VecIndex.add (idx : VecIndex) (chunks : List Chunk) (vecs : List Vec) :
    Except RagError VecIndex :=
  if chunks.length = vecs.length ∧ dimsOk idx.dim vecs = true then
    .ok ⟨idx.entries ++ List.zipWith Entry.mk chunks vecs, nextDim idx.dim vecs⟩
  else .error .dimensionMismatch

/-- Squared L2 distance between two vectors. -/
def dist2 (u v : Vec) : Int := ((u.zip v).map (fun p => (p.1 - p.2) ^ 2)).sum

/-- Modelled from the spec: `search(query_vector, k)` of section 4.4 — fails
with `InvalidArgumentError` when `k ≤ 0`; otherwise the `k` entries closest to
the query in non-decreasing distance order, ties broken stably by insertion
order (insertion sort is stable). -/
def VecIndex.search (idx : VecIndex) (q : Vec) (k : Nat) : Except RagError (List Entry) :=
  if k = 0 then .error .invalidArgument
  else .ok ((idx.entries.insertionSort (fun a b => dist2 a.vec q ≤ dist2 b.vec q)).take k)

/-- Modelled from the spec: `clear()` of section 4.4 — removes all entries and
resets the dimensionality to unset. -/
def VecIndex.clear (_ : VecIndex) : VecIndex := ⟨[], none⟩

/-- Map a fallible function over a list, stopping at the first error:
the batched encoding step of the ingestion path. -/
def mapExcept {ε α β : Type} (f : α → Except ε β) : List α → Except ε (List β)
  | [] => .ok []
  | a :: as =>
    match f a with
    | .error e => .error e
    | .ok b =>
      match mapExcept f as with
      | .error e => .error e
      | .ok bs => .ok (b :: bs)

/-- Modelled from the spec: the ingestion path of the Pipeline Coordinator
(section 4.7; `backend/app/main.py` is not among the visible sources):
Extractor → Chunker → Encoder (batched) → Vector Index `add`; the extraction
and encoding steps are passed in as fallible capabilities, chunk indices are
assigned in emission order starting at 0, and the result is the new index and
the count of chunks added. -/
def ingestPipeline (extractRes : Except RagError String) (maxSize overlap : Nat)
    (encode : String → Except RagError Vec) (filename : String) (idx : VecIndex) :
    Except RagError (VecIndex × Nat) :=
  match extractRes with
  | .error e => .error e
  | .ok text =>
    match chunkText maxSize overlap text.data with
    | .error e => .error e
    | .ok pieces =>
      match mapExcept (fun p => encode (String.mk p)) pieces with
      | .error e => .error e
      | .ok vecs =>
        match idx.add (pieces.enum.map (fun p => Chunk.mk (String.mk p.2) filename p.1)) vecs with
        | .error e => .error e
        | .ok idx2 => .ok (idx2, pieces.length)

/-- Modelled from the spec: the effect of one API request on the index state
(`backend/app/main.py` is not among the visible sources).  `GET /stats` and
`POST /search` are the read-only query path and leave the index untouched;
`POST /ingest` applies the ingestion effect; `DELETE /clear` clears. -/
def handleRequest (ingestFn : VecIndex → String → VecIndex) (idx : VecIndex) :
    ApiRequest → VecIndex
  | .getStats => idx
  | .search _ _ => idx
  | .ingest file => ingestFn idx file
  | .clear => idx.clear

/-! ## Concrete fixtures for counterexamples and witnesses -/

/-- A search-result element conforming to the declared `SearchResult`
interface. -/
def c1Element : Json :=
  .obj [("text", .str "Python is a high-level language."),
        ("metadata", .obj [("source", .str "python_guide.md"), ("chunk_index", .num 0)]),
        ("score", .num 1)]

/-- A response conforming to the declared `SearchResponse` interface. -/
def c1Response : Json :=
  .obj [("query", .str "what is python"),
        ("results", .arr [c1Element]),
        ("answer", .str "Python is a high-level language.")]

/-- A 1200-character text with distinguishable positions (the decimal digit of
each position). -/
def c2Text : List Char := (List.range 1200).map (fun n => Char.ofNat (48 + n % 10))

/-- A two-entry index of dimensionality 2. -/
def c5Index : VecIndex :=
  ⟨[⟨⟨"alpha", "doc.txt", 0⟩, [0, 0]⟩, ⟨⟨"beta", "doc.txt", 1⟩, [3, 4]⟩], some 2⟩

/-- A response conforming to the declared `IngestResponse` interface. -/
def c7Response : Json :=
  .obj [("message", .str "Document ingested successfully"),
        ("filename", .str "notes.txt"),
        ("chunks_added", .num 3)]

/-- An encoder whose backend is unreachable: every call fails with
`ModelUnavailableError`. -/
def c7EncodeFail : String → Except RagError Vec := fun _ => .error .modelUnavailable

/-- A component state whose query is whitespace only. -/
def c8State : ComponentState := ⟨"  ", none, none, false, false, none, none, ""⟩

/-- A component state with a non-blank query. -/
def c10State : ComponentState := ⟨" hello ", none, none, false, false, none, none, ""⟩

/-- An encoder that always succeeds with a two-dimensional vector. -/
def c7EncodeOk : String → Except RagError Vec := fun _ => .ok [1, 2]

/-! ## Helper lemmas -/

/-- A value conforming to the declared `SearchResult` interface satisfies the
nested element shape. -/
theorem conformsSearchResult_nested (r : Json) (h : conformsSearchResult r = true) :
    nestedSearchElement r = true := by
  unfold conformsSearchResult at h
  split at h
  · rename_i t m s
    unfold conformsSearchResultMetadata at h
    split at h
    · exact h
    · exact Bool.noConfusion h
  · exact Bool.noConfusion h

/-- Mapping an encoder that only ever fails with `ModelUnavailableError` over a
batch either succeeds or fails with `ModelUnavailableError`. -/
theorem mapExcept_encode_cases {α β : Type} (f : α → Except RagError β)
    (hf : ∀ a e, f a = Except.error e → e = RagError.modelUnavailable) (l : List α) :
    (∃ bs, mapExcept f l = Except.ok bs) ∨
      mapExcept f l = Except.error RagError.modelUnavailable := by
  induction l with
  | nil => exact Or.inl ⟨[], rfl⟩
  | cons a as ih =>
    cases hfa : f a with
    | error e =>
      right
      have he := hf a e hfa
      subst he
      simp [mapExcept, hfa]
    | ok b =>
      rcases ih with ⟨bs, hbs⟩ | hbs
      · exact Or.inl ⟨b :: bs, by simp [mapExcept, hfa, hbs]⟩
      · right
        simp [mapExcept, hfa, hbs]

/-- `VecIndex.add` fails only with `DimensionMismatchError`. -/
theorem add_error_is_dimension (idx : VecIndex) (cs : List Chunk) (vs : List Vec)
    (e : RagError) (h : idx.add cs vs = Except.error e) :
    e = RagError.dimensionMismatch := by
  unfold VecIndex.add at h
  split at h
  · exact Except.noConfusion h
  · injection h with h'
    exact h'.symm

/-! ## Claims -/

/-- C1 counterexample: a response conforming to the `SearchResponse` interface
declared in api.service.ts whose element does not carry top-level `source` or
`chunk_index` fields, refuting the claim that every element carries the five
fields text, source, chunk_index, metadata, score. -/
theorem c1_flat_fields_counterexample :
    conformsSearchResponse c1Response = true ∧
    claimedFlatSearchResponse c1Response = false ∧
    carriesField c1Element "source" = false ∧
    carriesField c1Element "chunk_index" = false :=
  ⟨rfl, rfl, rfl, rfl⟩

/-- C1 (amended): every response conforming to the `SearchResponse` interface
carries an `answer` string and a `results` list whose every element carries a
`text` string, a `score` number, and a `metadata` object that in turn carries
the `source` string and the `chunk_index` number. -/
theorem c1_search_response_shape (j : Json) (h : conformsSearchResponse j = true) :
    nestedSearchResponse j = true := by
  unfold conformsSearchResponse at h
  split at h
  · rename_i q rs a
    show rs.all nestedSearchElement = true
    rw [List.all_eq_true] at h ⊢
    intro r hr
    exact conformsSearchResult_nested r (h r hr)
  · exact Bool.noConfusion h

/-- C1 witness: the amended shape holds of the concrete conforming response. -/
theorem c1_search_response_shape_witness : nestedSearchResponse c1Response = true :=
  c1_search_response_shape c1Response rfl

/-- C2 counterexample: on a concrete 1200-character text the greedy windows of
size 500 with overlap 50 have lengths [500, 500, 300] — not [500, 500, 200] —
and the chunk with index 2 starts at character 900 of the source, not 450. -/
theorem c2_scenario_counterexample :
    (windows 500 450 c2Text).map List.length ≠ [500, 500, 200] ∧
    (windows 500 450 c2Text)[2]? = some (c2Text.drop 900) := by
  constructor
  · decide
  · decide

/-- C2 (amended): chunking any 1200-character text with chunk_size=500 and
overlap=50 produces exactly 3 chunks of lengths [500, 500, 300]; chunk 1
starts at character 450 of the source and chunk 2 at character 900. -/
theorem c2_chunk_1200 (cs : List Char) (h : cs.length = 1200) :
    chunkText 500 50 cs = Except.ok [cs.take 500, (cs.drop 450).take 500, cs.drop 900] ∧
    (windows 500 450 cs).map List.length = [500, 500, 300] := by
  have hw : windows 500 450 cs = [cs.take 500, (cs.drop 450).take 500, cs.drop 900] := by
    have e1 : windows 500 450 cs = windowsGo 500 450 1200 cs := by rw [windows, h]
    have u1 : windowsGo 500 450 1200 cs =
        if cs.length = 0 then []
        else if cs.length ≤ 500 then [cs]
        else cs.take 500 :: windowsGo 500 450 1199 (cs.drop 450) := rfl
    have u2 : windowsGo 500 450 1199 (cs.drop 450) =
        if (cs.drop 450).length = 0 then []
        else if (cs.drop 450).length ≤ 500 then [cs.drop 450]
        else (cs.drop 450).take 500 :: windowsGo 500 450 1198 ((cs.drop 450).drop 450) := rfl
    have u3 : windowsGo 500 450 1198 ((cs.drop 450).drop 450) =
        if ((cs.drop 450).drop 450).length = 0 then []
        else if ((cs.drop 450).drop 450).length ≤ 500 then [(cs.drop 450).drop 450]
        else ((cs.drop 450).drop 450).take 500 ::
          windowsGo 500 450 1197 (((cs.drop 450).drop 450).drop 450) := rfl
    have l1 : (cs.drop 450).length = 750 := by simp [List.length_drop, h]
    have l2 : ((cs.drop 450).drop 450).length = 300 := by simp [List.length_drop, h]
    rw [e1, u1, if_neg (by omega), if_neg (by omega), u2, if_neg (by omega),
      if_neg (by omega), u3, if_neg (by omega), if_pos (by omega), List.drop_drop]
  constructor
  · rw [chunkText, if_neg (by omega), show (500 - 50 : Nat) = 450 from rfl, hw]
  · rw [hw]
    simp only [List.map_cons, List.map_nil, List.length_take, List.length_drop, h]
    norm_num

/-- C2 witness: the amended statement evaluated at the concrete 1200-character
text. -/
theorem c2_chunk_1200_witness :
    chunkText 500 50 c2Text =
      Except.ok [c2Text.take 500, (c2Text.drop 450).take 500, c2Text.drop 900] ∧
    (windows 500 450 c2Text).map List.length = [500, 500, 300] :=
  c2_chunk_1200 c2Text (by decide)

/-- C3: the UI search operation only ever issues `POST /search` requests —
read-only ones, never ingest or clear — its subscribe callbacks issue no
request at all, and folding the backend's request handling over everything it
issues leaves the vector index exactly as it was. -/
theorem c3_query_path_does_not_mutate (st : ComponentState) (idx : VecIndex)
    (ingestFn : VecIndex → String → VecIndex) (data : Json) (detail : Option String) :
    (AppComponent.search st).2.all isSearchRequest = true ∧
    (AppComponent.search st).2.all ApiRequest.readOnly = true ∧
    (AppComponent.search st).2.foldl (handleRequest ingestFn) idx = idx ∧
    (AppComponent.searchOnNext st data).2 = [] ∧
    (AppComponent.searchOnError st detail).2 = [] := by
  unfold AppComponent.search
  by_cases h : jsTrim st.query = ""
  · simp [h, AppComponent.searchOnNext, AppComponent.searchOnError]
  · simp [h, AppComponent.searchOnNext, AppComponent.searchOnError,
      ApiService.search, handleRequest, isSearchRequest, ApiRequest.readOnly]

/-- C4 counterexample: the response type that api.service.ts declares for
`DELETE /clear` is `\x7b message: string \x7d`: a conforming response is not the
empty object, and the empty object does not conform. -/
theorem c4_clear_empty_object_counterexample :
    conformsClearResponse (Json.obj [("message", Json.str "Index cleared")]) = true ∧
    Json.obj [("message", Json.str "Index cleared")] ≠ Json.obj [] ∧
    conformsClearResponse (Json.obj []) = false :=
  ⟨rfl, by simp, rfl⟩

/-- C4 (amended): the clear operation's response is an object with a single
`message` string (not the empty object); clearing is idempotent and clearing
an already-empty index succeeds, leaving the empty index. -/
theorem c4_clear_response_and_idempotent :
    (∀ j, conformsClearResponse j = true ↔ ∃ m, j = Json.obj [("message", Json.str m)]) ∧
    (∀ idx : VecIndex, VecIndex.clear (VecIndex.clear idx) = VecIndex.clear idx) ∧
    VecIndex.clear VecIndex.empty = VecIndex.empty := by
  refine ⟨fun j => ⟨fun h => ?_, ?_⟩, fun idx => rfl, rfl⟩
  · unfold conformsClearResponse at h
    split at h
    · rename_i m
      exact ⟨m, rfl⟩
    · exact Bool.noConfusion h
  · rintro ⟨m, rfl⟩
    rfl

/-- C5: searching an index of N entries with any admissible k ≥ 1 such that
N ≤ k returns all N entries (a permutation of the stored entries), ordered by
non-decreasing distance to the query vector. -/
theorem c5_search_small_index_returns_all (idx : VecIndex) (q : Vec) (k : Nat)
    (hk : 1 ≤ k) (hN : idx.entries.length ≤ k) :
    ∃ l, idx.search q k = Except.ok l ∧ List.Perm l idx.entries ∧
      List.Pairwise (fun a b => dist2 a.vec q ≤ dist2 b.vec q) l := by
  refine ⟨idx.entries.insertionSort (fun a b => dist2 a.vec q ≤ dist2 b.vec q), ?_, ?_, ?_⟩
  · unfold VecIndex.search
    rw [if_neg (by omega)]
    congr 1
    apply List.take_of_length_le
    rw [(List.perm_insertionSort _ _).length_eq]
    exact hN
  · exact List.perm_insertionSort _ _
  · haveI : IsTotal Entry (fun a b => dist2 a.vec q ≤ dist2 b.vec q) :=
      ⟨fun a b => le_total _ _⟩
    haveI : IsTrans Entry (fun a b => dist2 a.vec q ≤ dist2 b.vec q) :=
      ⟨fun _ _ _ => le_trans⟩
    exact List.sorted_insertionSort _ _

/-- C5 witness: a two-entry index searched with k = 5 returns both entries in
non-decreasing distance order. -/
theorem c5_search_witness :
    ∃ l, c5Index.search [1, 1] 5 = Except.ok l ∧ List.Perm l c5Index.entries ∧
      List.Pairwise (fun a b => dist2 a.vec [1, 1] ≤ dist2 b.vec [1, 1]) l :=
  c5_search_small_index_returns_all c5Index [1, 1] 5 (by decide) (by decide)

/-- C6: a value conforms to the `StatsResponse` interface declared in
api.service.ts exactly when it is an object with precisely a
`total_documents` number, an `embedding_dimension` number, and a `model_name`
string. -/
theorem c6_stats_response_shape (j : Json) :
    conformsStatsResponse j = true ↔
      ∃ a b c, j = Json.obj [("total_documents", Json.num a),
        ("embedding_dimension", Json.num b), ("model_name", Json.str c)] := by
  constructor
  · intro h
    unfold conformsStatsResponse at h
    split at h
    · rename_i a b c
      exact ⟨a, b, c, rfl⟩
    · exact Bool.noConfusion h
  · rintro ⟨a, b, c, rfl⟩
    rfl

/-- C7 counterexample: the success payload declared in api.service.ts
(`IngestResponse`) carries `message` and `filename` besides `chunks_added`,
so it is not of the claimed shape `\x7bchunks_added: integer\x7d`; and ingestion
runs exist that fail with a model-unavailable or unsupported-format error,
which is none of extraction, dimension, or configuration. -/
theorem c7_ingest_counterexample :
    conformsIngestResponse c7Response = true ∧
    claimedIngestShape c7Response = false ∧
    ingestPipeline (Except.ok "text") 500 50 c7EncodeFail "notes.txt" VecIndex.empty =
      Except.error RagError.modelUnavailable ∧
    ingestPipeline (Except.error RagError.unsupportedFormat) 500 50 c7EncodeFail
      "notes.txt" VecIndex.empty = Except.error RagError.unsupportedFormat ∧
    (RagError.modelUnavailable ≠ RagError.extraction ∧
     RagError.modelUnavailable ≠ RagError.dimensionMismatch ∧
     RagError.modelUnavailable ≠ RagError.configuration ∧
     RagError.unsupportedFormat ≠ RagError.extraction ∧
     RagError.unsupportedFormat ≠ RagError.dimensionMismatch ∧
     RagError.unsupportedFormat ≠ RagError.configuration) := by
  exact ⟨rfl, rfl, rfl, rfl, by decide⟩

/-- C7 (amended): every ingest call either succeeds — with a response carrying
a `message` string, a `filename` string, and a `chunks_added` number — or
fails with an unsupported-format, extraction, configuration,
dimension-mismatch, or model-unavailable error; no other outcome is
possible. -/
theorem c7_ingest_outcomes (extractRes : Except RagError String) (maxSize overlap : Nat)
    (encode : String → Except RagError Vec) (filename : String) (idx : VecIndex)
    (hext : ∀ e, extractRes = Except.error e →
      e = RagError.unsupportedFormat ∨ e = RagError.extraction)
    (henc : ∀ s e, encode s = Except.error e → e = RagError.modelUnavailable) :
    ((∃ r, ingestPipeline extractRes maxSize overlap encode filename idx = Except.ok r) ∨
     (∃ e, ingestPipeline extractRes maxSize overlap encode filename idx = Except.error e ∧
        (e = RagError.unsupportedFormat ∨ e = RagError.extraction ∨
         e = RagError.configuration ∨ e = RagError.dimensionMismatch ∨
         e = RagError.modelUnavailable))) ∧
    (∀ j, conformsIngestResponse j = true ↔
      ∃ m f n, j = Json.obj [("message", Json.str m), ("filename", Json.str f),
        ("chunks_added", Json.num n)]) := by
  constructor
  · cases hex : extractRes with
    | error e =>
      right
      refine ⟨e, by simp [ingestPipeline, hex], ?_⟩
      rcases hext e hex with h | h
      · exact Or.inl h
      · exact Or.inr (Or.inl h)
    | ok text =>
      by_cases hcfg : maxSize ≤ overlap
      · right
        exact ⟨RagError.configuration, by simp [ingestPipeline, hex, chunkText, hcfg],
          by tauto⟩
      · have hch : chunkText maxSize overlap text.data =
            Except.ok (windows maxSize (maxSize - overlap) text.data) := by
          simp [chunkText, hcfg]
        rcases mapExcept_encode_cases (fun p => encode (String.mk p))
            (fun a e ha => henc (String.mk a) e ha)
            (windows maxSize (maxSize - overlap) text.data) with ⟨vecs, hv⟩ | hv
        · cases hA : idx.add
              ((windows maxSize (maxSize - overlap) text.data).enum.map
                (fun p => Chunk.mk (String.mk p.2) filename p.1)) vecs with
          | ok idx2 =>
            left
            exact ⟨(idx2, (windows maxSize (maxSize - overlap) text.data).length),
              by simp [ingestPipeline, hex, hch, hv, hA]⟩
          | error e =>
            right
            refine ⟨e, by simp [ingestPipeline, hex, hch, hv, hA], ?_⟩
            have := add_error_is_dimension _ _ _ _ hA
            tauto
        · right
          exact ⟨RagError.modelUnavailable,
            by simp [ingestPipeline, hex, hch, hv], by tauto⟩
  · intro j
    constructor
    · intro h
      unfold conformsIngestResponse at h
      split at h
      · rename_i m f n
        exact ⟨m, f, n, rfl⟩
      · exact Bool.noConfusion h
    · rintro ⟨m, f, n, rfl⟩
      rfl

/-- C7 witness: the amended statement at a concrete run whose extraction
succeeds and whose encoder never fails. -/
theorem c7_ingest_outcomes_witness :
    ((∃ r, ingestPipeline (Except.ok "hello world") 500 50 c7EncodeOk "doc.txt"
        VecIndex.empty = Except.ok r) ∨
     (∃ e, ingestPipeline (Except.ok "hello world") 500 50 c7EncodeOk "doc.txt"
        VecIndex.empty = Except.error e ∧
        (e = RagError.unsupportedFormat ∨ e = RagError.extraction ∨
         e = RagError.configuration ∨ e = RagError.dimensionMismatch ∨
         e = RagError.modelUnavailable))) ∧
    (∀ j, conformsIngestResponse j = true ↔
      ∃ m f n, j = Json.obj [("message", Json.str m), ("filename", Json.str f),
        ("chunks_added", Json.num n)]) :=
  c7_ingest_outcomes (Except.ok "hello world") 500 50 c7EncodeOk "doc.txt"
    VecIndex.empty (fun _ h => Except.noConfusion h) (fun _ _ h => Except.noConfusion h)

/-- C8: when the trimmed query is empty, `AppComponent.search` issues no API
request and leaves the whole component state — in particular the `results`,
`loading`, and `error` signals — unchanged. -/
theorem c8_blank_query_is_noop (st : ComponentState) (h : jsTrim st.query = "") :
    AppComponent.search st = (st, []) := by
  unfold AppComponent.search
  rw [if_pos h]

/-- C8 witness: the whitespace-only query is a no-op. -/
theorem c8_blank_query_witness : AppComponent.search c8State = (c8State, []) :=
  c8_blank_query_is_noop c8State (by decide)

/-- C9: after a completed upload attempt — whether the request succeeded or
errored — the `uploading` signal is false and the file input's value is the
empty string. -/
theorem c9_upload_resets_state (st : ComponentState) (f : String) (resp : UploadOutcome) :
    (AppComponent.onFileSelected st (some f) resp).1.uploading = false ∧
    (AppComponent.onFileSelected st (some f) resp).1.fileInputValue = "" := by
  cases resp <;> exact ⟨rfl, rfl⟩

/-- C10: whenever `AppComponent.search` issues a request it passes top_k = 5,
and `ApiService.search` defaults an omitted topK to 5 — so the frontend always
requests exactly 5 results. -/
theorem c10_top_k_is_five (st : ComponentState) (q : String) (h : jsTrim st.query ≠ "") :
    (AppComponent.search st).2 = [ApiRequest.search (jsTrim st.query) 5] ∧
    ApiService.search q none = ApiRequest.search q 5 ∧
    ApiService.search q (some 5) = ApiRequest.search q 5 := by
  refine ⟨?_, rfl, rfl⟩
  unfold AppComponent.search
  rw [if_neg h]
  rfl

/-- C10 witness: the concrete non-blank query issues exactly one request with
top_k = 5. -/
theorem c10_top_k_witness :
    (AppComponent.search c10State).2 = [ApiRequest.search (jsTrim c10State.query) 5] ∧
    ApiService.search "x" none = ApiRequest.search "x" 5 ∧
    ApiService.search "x" (some 5) = ApiRequest.search "x" 5 :=
  c10_top_k_is_five c10State "x" (by decide)
